import Mathlib

/-
  Verification of the ai-job-assistant screening pipeline.

  Shallow embedding of the repository's core logic:
  - `run_job_search.py`: the pipeline orchestrator (`__main__` loop), its local
    `run_job_scrape`, `get_similarity_score`, `get_gemini_analysis`,
    `clean_job_data` and `save_job_to_db`;
  - `api_client.py`: the refactored `run_job_scrape` and the three-argument
    `get_gemini_analysis`;
  - `database.py`: `save_job_to_db` (textually identical in behaviour to the
    copy in `run_job_search.py`, modelled once);
  - `server.py`: `trigger_search` and `run_script_in_thread` (the run guard).

  Python scalar values flowing through the pipeline (pandas record fields and
  `json.loads` results) are modelled by the inductive type `PyVal`; the external
  collaborators (embedding model, Gemini LLM, JobSpy scraper, Supabase store)
  are oracle parameters.  Exceptions that the code does not catch are modelled
  with `Except PyErr`.
-/

/-- A Python value as it occurs in this pipeline: `None`, booleans, ints,
finite floats (as rationals), the special floats `nan`/`inf`/`-inf`, strings,
lists and (string-keyed) dicts.  This covers pandas record fields and every
value `json.loads` can produce. -/
inductive PyVal where
  | vNone
  | vBool (b : Bool)
  | vInt (n : Int)
  | vFloat (q : ℚ)
  | vNan
  | vInf
  | vNegInf
  | vStr (s : String)
  | vList (elems : List PyVal)
  | vDict (entries : List (String × PyVal))

/-- A Python exception as it can arise (uncaught) in the pipeline loop of
`run_job_search.py`: attribute errors (`.get` on a non-dict), type errors
(ordering comparison against a non-number), key errors (`d[k]` with `k`
absent), and an exception escaping the retrieval provider (`scrape_jobs`). -/
inductive PyErr where
  | attrError
  | typeError
  | keyError (k : String)
  | providerError
deriving DecidableEq

/-- Python truthiness (`bool(v)`) for `PyVal`. -/
def pyTruthy : PyVal → Bool
  | .vNone => false
  | .vBool b => b
  | .vInt n => n != 0
  | .vFloat q => q != 0
  | .vNan => true
  | .vInf => true
  | .vNegInf => true
  | .vStr s => s != ""
  | .vList elems => !elems.isEmpty
  | .vDict entries => !entries.isEmpty

/-- `isinstance(v, str)`. -/
def isStr : PyVal → Bool
  | .vStr _ => true
  | _ => false

/-- `pd.isna(v)` on a scalar: true exactly for `None` and float `nan`. -/
def pdIsNa : PyVal → Bool
  | .vNone => true
  | .vNan => true
  | _ => false

/-- `isinstance(v, float) and math.isnan(v)`: true exactly for float `nan`
(`math.isnan` is false on finite floats and on the infinities). -/
def isFloatNan : PyVal → Bool
  | .vNan => true
  | _ => false

/-- The numeric content of a Python value for `==` comparisons between
numbers (`bool` is an `int` subclass, so `True == 1`).  `nan` and the
infinities are handled separately by `pyEq`. -/
def pyNum : PyVal → Option ℚ
  | .vBool b => some (if b then 1 else 0)
  | .vInt n => some (n : ℚ)
  | .vFloat q => some q
  | _ => none

mutual

/-- Python `==` on `PyVal`: `nan` compares unequal to everything (itself
included), numbers compare by value across `bool`/`int`/`float`, containers
compare elementwise.  (Python's dict `==` ignores insertion order; entry
lists are compared in order here, which agrees with it on the equal-order
dicts this pipeline produces.) -/
def pyEq : PyVal → PyVal → Bool
  | .vNan, _ => false
  | _, .vNan => false
  | .vNone, .vNone => true
  | .vInf, .vInf => true
  | .vNegInf, .vNegInf => true
  | .vStr a, .vStr b => a == b
  | .vList a, .vList b => pyEqList a b
  | .vDict a, .vDict b => pyEqEntries a b
  | a, b =>
    match pyNum a, pyNum b with
    | some x, some y => x == y
    | _, _ => false

/-- Elementwise Python `==` on lists. -/
def pyEqList : List PyVal → List PyVal → Bool
  | [], [] => true
  | a :: as_, b :: bs => pyEq a b && pyEqList as_ bs
  | _, _ => false

/-- Entrywise Python `==` on dict entry lists. -/
def pyEqEntries : List (String × PyVal) → List (String × PyVal) → Bool
  | [], [] => true
  | (k, a) :: as_, (l, b) :: bs => k == l && pyEq a b && pyEqEntries as_ bs
  | _, _ => false

end

/-- Python `v >= m` against an `int` threshold.  Defined (`some`) on numbers,
booleans and the special floats -- comparisons with `nan` are `False`, `inf`
exceeds every int -- and a `TypeError` (`none`) on everything else. -/
def pyGe : PyVal → Int → Option Bool
  | .vNan, _ => some false
  | .vInf, _ => some true
  | .vNegInf, _ => some false
  | .vBool b, m => some (decide (m ≤ (if b then (1 : Int) else 0)))
  | .vInt n, m => some (decide (m ≤ n))
  | .vFloat q, m => some (decide ((m : ℚ) ≤ q))
  | _, _ => none

/-- A Python dict with string keys, as an insertion-ordered entry list. -/
abbrev Dict := List (String × PyVal)

/-- `v.get(k, dflt)`: raises `AttributeError` when `v` is not a dict. -/
def pyGetAttr (v : PyVal) (k : String) (dflt : PyVal) : Except PyErr PyVal :=
  match v with
  | .vDict entries => .ok ((List.lookup k entries).getD dflt)
  | _ => .error .attrError

/-- `v[k]`: `KeyError` when the key is absent, `TypeError` on a non-dict. -/
def pyIndex (v : PyVal) (k : String) : Except PyErr PyVal :=
  match v with
  | .vDict entries =>
    match List.lookup k entries with
    | some x => .ok x
    | none => .error (.keyError k)
  | _ => .error .typeError

/-- A posting candidate, i.e. one record of the scraped jobs data frame.  The
pipeline reads exactly the keys `title`, `company`, `job_url`, `description`
via `job.get(...)`; each may carry any Python value (pandas fills missing
cells with float `nan`, and `dict.get` yields `None` for an absent key, both
of which are `PyVal` constructors). -/
structure Job where
  title : PyVal
  company : PyVal
  job_url : PyVal
  description : PyVal

/-- A saved search configuration as fetched from the `searches` table.  The
keys the code reads directly (`search_name`, `search_term`, `id`) are modelled
as present; the keys it reads with `.get` and a default are `Option`s. -/
structure SearchConfig where
  id : Int
  search_name : String
  search_term : String
  country : Option String
  job_type : Option String
  experience_level : Option String
  hours_old : Option Int

/-- The keyword arguments actually passed to `jobspy.scrape_jobs`.  Fields the
call site does not pass are `none`. -/
structure ScrapeArgs where
  site_name : List String
  search_term : String
  country : Option String
  job_type : Option String
  experience_level : Option String
  hours_old : Option Int
  results_wanted : Int
  timeout : Int
deriving DecidableEq

/-- `run_job_search.py` line 139: `SIMILARITY_THRESHOLD = 0.45`. -/
def SIMILARITY_THRESHOLD : ℚ := mkRat 45 100

/-- `run_job_search.py` line 140: `GEMINI_RATING_THRESHOLD = 7`. -/
def GEMINI_RATING_THRESHOLD : Int := 7

/-- `run_job_search.py` `clean_job_data` (lines 117-124): rebuild the dict,
replacing each value `v` with `None` when `isinstance(v, float) and
math.isnan(v)`, and keeping every other value unchanged. -/
def clean_job_data (job_dict : Dict) : Dict :=
  job_dict.map (fun kv => (kv.1, if isFloatNan kv.2 then .vNone else kv.2))

/-- `run_job_search.py` `get_similarity_score` (lines 81-84).  The composite
"encode the description and take cosine similarity against the fixed resume
embedding" is the oracle `embed : String → ℚ`.  The second component of the
result is the instrumented list of descriptions sent to the embedding oracle
(empty when the guard `not isinstance(job_description, str) or
pd.isna(job_description)` returns `0.0` early). -/
def get_similarity_score (embed : String → ℚ) (job_description : PyVal) :
    ℚ × List String :=
  if !(isStr job_description) || pdIsNa job_description then (0, [])
  else
    match job_description with
    | .vStr s => (embed s, [s])
    | _ => (0, [])

/-- Python `str.strip()` with no argument: remove whitespace from both ends. -/
def pyStrip (s : String) : String :=
  ⟨((s.data.dropWhile Char.isWhitespace).reverse.dropWhile Char.isWhitespace).reverse⟩

/-- Recursion core of Python `str.replace`: replace occurrences of `pat`
left-to-right, non-overlapping.  The fuel argument (instantiated with the
input length) only makes the recursion structural. -/
def pyReplaceAux (pat rep : List Char) : Nat → List Char → List Char
  | _, [] => []
  | 0, l => l
  | fuel + 1, c :: cs =>
    if pat.isPrefixOf (c :: cs) ∧ pat ≠ [] then
      rep ++ pyReplaceAux pat rep fuel (List.drop pat.length (c :: cs))
    else c :: pyReplaceAux pat rep fuel cs

/-- Python `s.replace(pat, rep)` (for the non-empty patterns used here). -/
def pyReplace (s pat rep : String) : String :=
  ⟨pyReplaceAux pat.data rep.data s.data.length s.data⟩

/-- The code-fence stripping both `get_gemini_analysis` versions apply to the
oracle's text before `json.loads`:
`response.text.strip().replace("```json", "").replace("```", "")`. -/
def clean_fenced (t : String) : String :=
  pyReplace (pyReplace (pyStrip t) "```json" "") "```" ""

namespace RunJobSearch

/-- `run_job_search.py` `get_gemini_analysis` (lines 86-95), the two-argument
version the `__main__` loop calls.  The Gemini call is the oracle
`oracle : String → String → Except Unit String` (applied to the two values
the prompt f-string interpolates: resume context and job description);
`json.loads` is the parameter `parse`, returning `none` when it would raise
`JSONDecodeError`.  Both an oracle exception and a parse failure land in the
same `except` clause and produce `None`; a successfully parsed value is
returned as-is, with no schema validation. -/
def get_gemini_analysis (parse : String → Option PyVal)
    (oracle : String → String → Except Unit String)
    (resume_context job_description : String) : Option PyVal :=
  match oracle resume_context job_description with
  | .error _ => none
  | .ok t => parse (clean_fenced t)

/-- The arguments `run_job_search.py`'s `run_job_scrape` (lines 64-71) passes
to `scrape_jobs`: no `experience_level`, no `hours_old`, defaults
`'india'`/`'fulltime'` for absent `country`/`job_type`, 25 results, 30s. -/
def scrape_args (cfg : SearchConfig) : ScrapeArgs :=
  ⟨["linkedin", "indeed"], cfg.search_term, some (cfg.country.getD "india"),
    some (cfg.job_type.getD "fulltime"), none, none, 25, 30⟩

/-- `run_job_search.py` `run_job_scrape` (lines 59-78).  There is no
`try`/`except` in this version: an exception raised by `scrape_jobs` (the
oracle `scraper`) propagates to the caller.  An empty data frame yields `[]`. -/
def run_job_scrape (scraper : ScrapeArgs → Except Unit (List Job))
    (cfg : SearchConfig) : Except Unit (List Job) :=
  match scraper (scrape_args cfg) with
  | .error e => .error e
  | .ok jobs => if jobs.isEmpty then .ok [] else .ok jobs

end RunJobSearch

namespace ApiClient

/-- `api_client.py` `get_gemini_analysis` (lines 42-81), the three-argument
version: same oracle-call / fence-strip / `json.loads` / `except`-to-`None`
structure as `RunJobSearch.get_gemini_analysis`, but the prompt interpolates
the experience level as well, so the oracle takes three arguments. -/
def get_gemini_analysis (parse : String → Option PyVal)
    (oracle : String → String → String → Except Unit String)
    (resume_context job_description experience_level : String) : Option PyVal :=
  match oracle resume_context job_description experience_level with
  | .error _ => none
  | .ok t => parse (clean_fenced t)

/-- The arguments `api_client.py`'s `run_job_scrape` (lines 16-27) passes to
`scrape_jobs`: `experience_level` (default `'entry_level'`) and `hours_old`
(default 24) are passed, `country` is passed without a default, `job_type` is
the literal `'fulltime'`, 30 results, 60s. -/
def scrape_args (cfg : SearchConfig) : ScrapeArgs :=
  ⟨["linkedin", "indeed"], cfg.search_term, cfg.country, some "fulltime",
    some (cfg.experience_level.getD "entry_level"),
    some (cfg.hours_old.getD 24), 30, 60⟩

/-- `api_client.py` `run_job_scrape` (lines 6-39): the whole `scrape_jobs`
call sits in a `try`/`except Exception` that logs and returns `[]`, so this
version is total. -/
def run_job_scrape (scraper : ScrapeArgs → Except Unit (List Job))
    (cfg : SearchConfig) : List Job :=
  match scraper (scrape_args cfg) with
  | .error _ => []
  | .ok jobs => if jobs.isEmpty then [] else jobs

end ApiClient

/-- The stored `job_url` of a row (`row.get('job_url')`, `None` if absent). -/
def urlOf (row : Dict) : PyVal :=
  (List.lookup "job_url" row).getD .vNone

/-- `database.py` `save_job_to_db` (lines 10-29); `run_job_search.py` lines
98-114 contain the behaviourally identical function.  The Supabase `jobs`
table is modelled as the list `store` of previously inserted rows, and the
existence query `.select('id').eq('job_url', job_url)` as a scan comparing
each stored row's `job_url` with the incoming one under Python `==`.  The
body runs inside `try`/`except Exception`, so every failing path (including
the `KeyError` from the `job_data['title']` log line when `title` is absent)
leaves the store unchanged rather than raising. -/
def save_job_to_db (store : List Dict) (job_data : Dict) : List Dict :=
  if !(pyTruthy (urlOf job_data)) then store
  else if store.any (fun row => pyEq (urlOf row) (urlOf job_data)) then store
  else if (List.lookup "title" job_data).isNone then store
  else store ++ [job_data]

/-- The outcome of the per-posting body of the `__main__` loop
(`run_job_search.py` lines 144-178): either an uncaught exception, or
(`.ok`) the cleaned record handed to `save_job_to_db` (`some`) / a skip
(`none`); plus the instrumented traces of embedding-oracle calls and of
qualitative-gate calls, each gate call recorded as the argument pair
(resume context, job description) actually passed. -/
structure StepOut where
  outcome : Except PyErr (Option Dict)
  embedCalls : List String
  gateCalls : List (String × String)

/-- One iteration of the per-posting loop of `run_job_search.py` `__main__`
(lines 144-178): description guard, similarity threshold, qualitative gate
(the local two-argument `get_gemini_analysis`), `gemini_result and
gemini_result.get("gemini_rating", 0) >= GEMINI_RATING_THRESHOLD`, record
assembly (with `datetime.now().isoformat()` supplied as `now`), and
`clean_job_data`.  The body runs without any `try`, so `AttributeError` /
`TypeError` / `KeyError` abort the whole run. -/
def processJob (parse : String → Option PyVal) (embed : String → ℚ)
    (gate : String → String → Except Unit String)
    (resume_context now : String) (profile_id search_id : Int) (job : Job) :
    StepOut :=
  let description := job.description
  if !(isStr description) || pdIsNa description then ⟨.ok none, [], []⟩
  else
    match description with
    | .vStr s =>
      let sim := get_similarity_score embed (.vStr s)
      let score := sim.1
      if SIMILARITY_THRESHOLD ≤ score then
        match RunJobSearch.get_gemini_analysis parse gate resume_context s with
        | none => ⟨.ok none, sim.2, [(resume_context, s)]⟩
        | some gemini_result =>
          if !(pyTruthy gemini_result) then ⟨.ok none, sim.2, [(resume_context, s)]⟩
          else
            match pyGetAttr gemini_result "gemini_rating" (.vInt 0) with
            | .error e => ⟨.error e, sim.2, [(resume_context, s)]⟩
            | .ok got =>
              match pyGe got GEMINI_RATING_THRESHOLD with
              | none => ⟨.error .typeError, sim.2, [(resume_context, s)]⟩
              | some false => ⟨.ok none, sim.2, [(resume_context, s)]⟩
              | some true =>
                match pyIndex gemini_result "gemini_rating" with
                | .error e => ⟨.error e, sim.2, [(resume_context, s)]⟩
                | .ok rating =>
                  match pyIndex gemini_result "ai_reason" with
                  | .error e => ⟨.error e, sim.2, [(resume_context, s)]⟩
                  | .ok reason =>
                    let job_to_save : Dict :=
                      [("title", job.title), ("company", job.company),
                       ("job_url", job.job_url), ("description", .vStr s),
                       ("similarity_score", .vFloat score),
                       ("gemini_rating", rating), ("ai_reason", reason),
                       ("created_at", .vStr now),
                       ("profile_id", .vInt profile_id),
                       ("search_id", .vInt search_id)]
                    ⟨.ok (some (clean_job_data job_to_save)), sim.2,
                      [(resume_context, s)]⟩
      else ⟨.ok none, sim.2, []⟩
    | _ => ⟨.ok none, [], []⟩

/-- The pipeline state threaded through the `__main__` loop: the store plus
the instrumented oracle-call traces. -/
structure PipeState where
  store : List Dict
  embedCalls : List String
  gateCalls : List (String × String)

/-- The inner `for job in jobs_found` loop (lines 144-178): process each
posting in order, feeding each produced record to `save_job_to_db`; an
uncaught exception stops the run there (`some e`), keeping the state
reached so far. -/
def runJobs (parse : String → Option PyVal) (embed : String → ℚ)
    (gate : String → String → Except Unit String)
    (resume_context now : String) (profile_id search_id : Int) :
    List Job → PipeState → PipeState × Option PyErr
  | [], st => (st, none)
  | job :: rest, st =>
    let r := processJob parse embed gate resume_context now profile_id search_id job
    let store' :=
      match r.outcome with
      | .ok (some rec) => save_job_to_db st.store rec
      | _ => st.store
    let st' : PipeState :=
      ⟨store', st.embedCalls ++ r.embedCalls, st.gateCalls ++ r.gateCalls⟩
    match r.outcome with
    | .error e => (st', some e)
    | _ => runJobs parse embed gate resume_context now profile_id search_id rest st'

/-- The outer `for search in all_searches` loop (lines 142-178): each search
is scraped with the local `RunJobSearch.run_job_scrape`; since that version
has no `try`/`except`, a provider exception propagates and aborts the whole
run (`some .providerError`) before any later search is processed. -/
def runSearches (scraper : ScrapeArgs → Except Unit (List Job))
    (parse : String → Option PyVal) (embed : String → ℚ)
    (gate : String → String → Except Unit String)
    (resume_context now : String) (profile_id : Int) :
    List SearchConfig → PipeState → PipeState × Option PyErr
  | [], st => (st, none)
  | cfg :: rest, st =>
    match RunJobSearch.run_job_scrape scraper cfg with
    | .error _ => (st, some .providerError)
    | .ok jobs =>
      match runJobs parse embed gate resume_context now profile_id cfg.id jobs st with
      | (st', none) => runSearches scraper parse embed gate resume_context now profile_id rest st'
      | (st', some e) => (st', some e)

/-- The screening pipeline of `run_job_search.py` `__main__` (the `else`
branch, lines 135-178), given an already-fetched profile (its resume context
and id) and search list, starting from an empty `jobs` store. -/
def run_pipeline (scraper : ScrapeArgs → Except Unit (List Job))
    (parse : String → Option PyVal) (embed : String → ℚ)
    (gate : String → String → Except Unit String)
    (resume_context now : String) (profile_id : Int)
    (searches : List SearchConfig) : PipeState × Option PyErr :=
  runSearches scraper parse embed gate resume_context now profile_id searches ⟨[], [], []⟩

namespace Server

/-- `server.py` `trigger_search` (lines 43-57): read the `is_search_running`
flag; if set, respond 409 without starting anything; otherwise set it, start
the worker thread, and respond 202.  Result: (HTTP status, flag after the
handler). -/
def trigger_search (is_search_running : Bool) : Nat × Bool :=
  if is_search_running then (409, is_search_running) else (202, true)

/-- `server.py` `run_script_in_thread` (lines 26-40): run the script inside
`try`/`except Exception`, and clear `is_search_running` in the `finally`
block, so the flag after the worker exits is `false` on both the normal and
the exceptional path.  `script` is the orchestrator run's outcome. -/
def run_script_in_thread (script : Except Unit Unit) (_is_search_running : Bool) :
    Bool :=
  match script with
  | .ok _ => false
  | .error _ => false

end Server

/-
  Concrete fixtures used by witnesses and counterexamples: a parse oracle, an
  embedding oracle, a gate oracle, a posting, and the record the pipeline
  assembles for them.
-/

/-- A `json.loads` behaviour: the text `RESP` parses to a well-formed verdict
object, everything else fails to parse. -/
def parse0 : String → Option PyVal := fun t =>
  if t == "RESP" then
    some (.vDict [("gemini_rating", .vInt 9), ("ai_reason", .vStr "good fit")])
  else none

/-- An embedding oracle scoring every description 0.5. -/
def embedHalf : String → ℚ := fun _ => mkRat 1 2

/-- A gate oracle that always answers with the text `RESP`. -/
def gate0 : String → String → Except Unit String := fun _ _ => .ok "RESP"

/-- A posting with all four fields present and a text description. -/
def job0 : Job := ⟨.vStr "T", .vStr "Co", .vStr "https://x/1", .vStr "great job"⟩

/-- The record the pipeline assembles for `job0` under `parse0`/`embedHalf`/
`gate0`, resume context `rc`, timestamp `2026-01-01`, profile 1, search 2. -/
def rec0 : Dict :=
  [("title", .vStr "T"), ("company", .vStr "Co"),
   ("job_url", .vStr "https://x/1"), ("description", .vStr "great job"),
   ("similarity_score", .vFloat (mkRat 1 2)),
   ("gemini_rating", .vInt 9), ("ai_reason", .vStr "good fit"),
   ("created_at", .vStr "2026-01-01"),
   ("profile_id", .vInt 1), ("search_id", .vInt 2)]

/-- The spec's notion of a "non-empty text value" (claim C7). -/
def specNonEmptyText : PyVal → Bool
  | .vStr s => s != ""
  | _ => false

/-- A posting whose description is the empty string: a text value, but not a
non-empty one. -/
def jobEmptyDesc : Job := ⟨.vStr "T", .vStr "Co", .vStr "https://x/2", .vStr ""⟩

/-- The spec's verdict schema for the qualitative gate (claim C5):
`gemini_rating` an int and `ai_reason` a string. -/
def specGeminiSchema : PyVal → Bool
  | .vDict entries =>
    (match List.lookup "gemini_rating" entries with
     | some (.vInt _) => true
     | _ => false) &&
    (match List.lookup "ai_reason" entries with
     | some (.vStr _) => true
     | _ => false)
  | _ => false

/-- A `json.loads` behaviour agreeing with Python on the input used by the C5
counterexample: the text `\x7b\x7d` (an empty JSON object) parses to the
empty dict; every other input fails to parse. -/
def parseEmptyObj : String → Option PyVal := fun t =>
  if t == "\x7b\x7d" then some (.vDict []) else none

/-- A gate oracle answering with a code-fenced empty JSON object. -/
def oracleFenced : String → String → String → Except Unit String :=
  fun _ _ _ => .ok " ```json\x7b\x7d``` "

/-- A gate oracle that raises on every call. -/
def oracleRaise : String → String → String → Except Unit String :=
  fun _ _ _ => .error ()

/-- The spec's notion of a "floating-point value that is not finite"
(claim C8): `nan` and the two infinities. -/
def specNonFiniteFloat : PyVal → Bool
  | .vNan => true
  | .vInf => true
  | .vNegInf => true
  | _ => false

/-- A search configuration whose retrieval the failing scraper rejects. -/
def cfgA : SearchConfig := ⟨1, "searchA", "python developer", some "india", none, none, none⟩

/-- A search configuration whose retrieval the failing scraper serves. -/
def cfgB : SearchConfig := ⟨2, "searchB", "java developer", some "india", none, none, none⟩

/-- A retrieval provider that raises for the `python developer` search and
returns one good posting for every other search. -/
def failingScraper : ScrapeArgs → Except Unit (List Job) := fun a =>
  if a.search_term == "python developer" then .error () else .ok [job0]

/-- A search configuration requesting an entry-level role. -/
def cfgEntry : SearchConfig := ⟨3, "s", "term", some "india", none, some "entry_level", none⟩

/-- The same search configuration, but requesting a senior role. -/
def cfgSenior : SearchConfig := ⟨3, "s", "term", some "india", none, some "senior", none⟩

/-- A retrieval provider that always returns one good posting. -/
def okScraper : ScrapeArgs → Except Unit (List Job) := fun _ => .ok [job0]

/-- The pairwise store invariant behind deduplication: no stored row's
`job_url` compares Python-equal to another row's. -/
def UrlsPairwiseDistinct (store : List Dict) : Prop :=
  store.Pairwise (fun a b => pyEq (urlOf a) (urlOf b) = false)

/-
  Helper lemmas shared by the claim theorems.
-/

/-- A value that passed the `>= 7` comparison is not the float `nan` (so
`clean_job_data` leaves it unchanged). -/
theorem pyGe_true_not_nan (v : PyVal) (n : Int) (h : pyGe v n = some true) :
    isFloatNan v = false := by
  cases v <;> simp_all [pyGe, isFloatNan]

/-- If `.get` succeeded, the receiver was a dict and the result is the looked
up value or the default. -/
theorem pyGetAttr_ok_inv {v : PyVal} {k : String} {dflt got : PyVal}
    (h : pyGetAttr v k dflt = .ok got) :
    ∃ entries, v = .vDict entries ∧ (List.lookup k entries).getD dflt = got := by
  cases v <;> simp [pyGetAttr] at h
  exact ⟨_, rfl, h⟩

/-- The only exception `.get` itself raises is `AttributeError`. -/
theorem pyGetAttr_error_inv {v : PyVal} {k : String} {dflt : PyVal} {e : PyErr}
    (h : pyGetAttr v k dflt = .error e) : e = .attrError := by
  cases v <;> simp [pyGetAttr] at h <;> exact h.symm

/-- A failing subscript on a dict means the key was absent and the exception
is a `KeyError` for that key. -/
theorem pyIndex_error_of_dict {entries : Dict} {k : String} {e : PyErr}
    (h : pyIndex (.vDict entries) k = .error e) :
    List.lookup k entries = none ∧ e = .keyError k := by
  cases hl : List.lookup k entries <;> simp [pyIndex, hl] at h
  simp_all

/-- `save_job_to_db` preserves pairwise-distinct urls: the only branch that
inserts is guarded by the existence check over the whole store. -/
theorem save_job_to_db_preserves (store : List Dict) (rec : Dict)
    (h : UrlsPairwiseDistinct store) :
    UrlsPairwiseDistinct (save_job_to_db store rec) := by
  unfold save_job_to_db
  split
  · exact h
  · split
    · exact h
    · split
      · exact h
      · rename_i hurl hdup _
        rw [UrlsPairwiseDistinct, List.pairwise_append]
        refine ⟨h, List.pairwise_singleton _ _, ?_⟩
        intro a ha b hb
        have hb' : b = rec := List.mem_singleton.mp hb
        subst hb'
        simp only [List.any_eq_true, not_exists, not_and] at hdup
        exact Bool.not_eq_true _ ▸ (hdup a ha)

/-- Inversion of the per-posting loop at a persisting run: the description
was text, its similarity score met the threshold, the gate verdict's rating
passed the `>= 7` comparison, and the record handed to the store writer is
the cleaned assembly of exactly those values. -/
theorem processJob_persist_inv (parse : String → Option PyVal) (embed : String → ℚ)
    (gate : String → String → Except Unit String) (rc now : String)
    (pid sid : Int) (job : Job) (rec : Dict) (ec : List String)
    (gc : List (String × String))
    (h : processJob parse embed gate rc now pid sid job = ⟨.ok (some rec), ec, gc⟩) :
    ∃ s rating reason,
      job.description = .vStr s ∧
      SIMILARITY_THRESHOLD ≤ embed s ∧
      pyGe rating GEMINI_RATING_THRESHOLD = some true ∧
      rec = clean_job_data
        [("title", job.title), ("company", job.company),
         ("job_url", job.job_url), ("description", .vStr s),
         ("similarity_score", .vFloat (embed s)),
         ("gemini_rating", rating), ("ai_reason", reason),
         ("created_at", .vStr now),
         ("profile_id", .vInt pid), ("search_id", .vInt sid)] := by
  unfold processJob at h
  rcases hd : job.description with _ | b | n | q | _ | _ | _ | s | l | d <;> rw [hd] at h <;>
    simp only [isStr, pdIsNa, Bool.not_true, Bool.not_false, Bool.or_self, Bool.true_or,
      Bool.or_true, Bool.or_false, Bool.false_or, if_true, if_false, reduceIte] at h
  case' vStr =>
    rw [show get_similarity_score embed (.vStr s) = (embed s, [s]) from rfl] at h
    split at h
    · rename_i hguard
      exact absurd hguard (by simp)
    · split at h
      · -- similarity threshold passed
        rename_i hsim
        split at h
        · simp at h
        · rename_i gemini_result hgem
          split at h
          · simp at h
          · rename_i htruthy
            split at h
            · simp at h
            · rename_i got hgot
              split at h
              · simp at h
              · simp at h
              · rename_i hge
                split at h
                · simp at h
                · rename_i rating hrate
                  split at h
                  · simp at h
                  · rename_i reason hreason
                    simp only [StepOut.mk.injEq, Except.ok.injEq, Option.some.injEq] at h
                    obtain ⟨hrec, hec, hgc⟩ := h
                    have hgotrating : got = rating := by
                      cases gemini_result <;> try simp [pyGetAttr] at hgot
                      case vDict entries =>
                        cases hl : List.lookup "gemini_rating" entries
                        · simp [pyIndex, hl] at hrate
                        · simp [pyIndex, hl] at hrate
                          simp [pyGetAttr, hl] at hgot
                          rw [← hgot, ← hrate]
                    exact ⟨s, rating, reason, rfl, hsim, hgotrating ▸ hge, hrec.symm⟩
      · simp at h
  all_goals simp at h

/-- Inversion of the per-posting loop at an uncaught exception: the one
`KeyError` the record assembly cannot raise is for `gemini_rating`, because
the guard `.get("gemini_rating", 0) >= 7` only passes when the key exists. -/
theorem processJob_error_inv (parse : String → Option PyVal) (embed : String → ℚ)
    (gate : String → String → Except Unit String) (rc now : String)
    (pid sid : Int) (job : Job) (e : PyErr) (ec : List String)
    (gc : List (String × String))
    (h : processJob parse embed gate rc now pid sid job = ⟨.error e, ec, gc⟩) :
    e ≠ .keyError "gemini_rating" := by
  unfold processJob at h
  rcases hd : job.description with _ | b | n | q | _ | _ | _ | s | l | d <;> rw [hd] at h <;>
    simp only [isStr, pdIsNa, Bool.not_true, Bool.not_false, Bool.or_self, Bool.true_or,
      Bool.or_true, Bool.or_false, Bool.false_or, if_true, if_false, reduceIte] at h
  case' vStr =>
    rw [show get_similarity_score embed (.vStr s) = (embed s, [s]) from rfl] at h
    split at h
    · rename_i hguard
      exact absurd hguard (by simp)
    · split at h
      · split at h
        · simp at h
        · rename_i gemini_result hgem
          split at h
          · simp at h
          · split at h
            · rename_i err hgot
              -- `.get` on a non-dict raised: AttributeError
              simp only [StepOut.mk.injEq, Except.error.injEq] at h
              obtain ⟨he, -, -⟩ := h
              subst he
              rw [pyGetAttr_error_inv hgot]
              simp
            · rename_i got hgot
              split at h
              · -- comparison raised: TypeError
                simp only [StepOut.mk.injEq, Except.error.injEq] at h
                obtain ⟨he, -, -⟩ := h
                subst he
                simp
              · simp at h
              · rename_i hge
                split at h
                · rename_i err hrate
                  -- lookup of `gemini_rating` cannot fail here: the guard
                  -- `.get("gemini_rating", 0) >= 7` passed, so the key exists
                  exfalso
                  obtain ⟨entries, hv, hgd⟩ := pyGetAttr_ok_inv hgot
                  subst hv
                  obtain ⟨hl, -⟩ := pyIndex_error_of_dict hrate
                  rw [hl] at hgd
                  simp at hgd
                  rw [← hgd] at hge
                  simp [pyGe, GEMINI_RATING_THRESHOLD] at hge
                · rename_i rating hrate
                  split at h
                  · rename_i err hreason
                    -- only `ai_reason` can be the missing key here
                    simp only [StepOut.mk.injEq, Except.error.injEq] at h
                    obtain ⟨he, -, -⟩ := h
                    subst he
                    obtain ⟨entries, hv, -⟩ := pyGetAttr_ok_inv hgot
                    subst hv
                    obtain ⟨-, he'⟩ := pyIndex_error_of_dict hreason
                    subst he'
                    decide
                  · simp at h
      · simp at h
  all_goals simp at h

/-- The `similarity_score` entry of an assembled-and-cleaned record. -/
theorem lookup_clean_sim (t c u : PyVal) (s now : String) (q : ℚ)
    (rating reason : PyVal) (pid sid : Int) :
    List.lookup "similarity_score" (clean_job_data
      [("title", t), ("company", c), ("job_url", u), ("description", .vStr s),
       ("similarity_score", .vFloat q), ("gemini_rating", rating),
       ("ai_reason", reason), ("created_at", .vStr now),
       ("profile_id", .vInt pid), ("search_id", .vInt sid)]) =
    some (.vFloat q) := rfl

/-- The `gemini_rating` entry of an assembled-and-cleaned record. -/
theorem lookup_clean_rating (t c u : PyVal) (s now : String) (q : ℚ)
    (rating reason : PyVal) (pid sid : Int) :
    List.lookup "gemini_rating" (clean_job_data
      [("title", t), ("company", c), ("job_url", u), ("description", .vStr s),
       ("similarity_score", .vFloat q), ("gemini_rating", rating),
       ("ai_reason", reason), ("created_at", .vStr now),
       ("profile_id", .vInt pid), ("search_id", .vInt sid)]) =
    some (if isFloatNan rating then .vNone else rating) := rfl

/-
  Claim theorems.
-/

/-- Claim C1: every record the pipeline loop hands to the store writer (in
particular every record for which the insert is reached) carries a
`similarity_score` of at least 0.45 and a `gemini_rating` that passed the
`>= 7` comparison; no posting failing either threshold is ever passed to
persistence. -/
theorem c1_persistence_requires_both_thresholds (parse : String → Option PyVal)
    (embed : String → ℚ) (gate : String → String → Except Unit String)
    (rc now : String) (pid sid : Int) (job : Job) (rec : Dict)
    (ec : List String) (gc : List (String × String))
    (h : processJob parse embed gate rc now pid sid job = ⟨.ok (some rec), ec, gc⟩) :
    (∃ q : ℚ, List.lookup "similarity_score" rec = some (.vFloat q) ∧
      SIMILARITY_THRESHOLD ≤ q) ∧
    (∃ v, List.lookup "gemini_rating" rec = some v ∧
      pyGe v GEMINI_RATING_THRESHOLD = some true) := by
  obtain ⟨s, rating, reason, hd, hsim, hge, hrec⟩ :=
    processJob_persist_inv parse embed gate rc now pid sid job rec ec gc h
  subst hrec
  refine ⟨⟨embed s, lookup_clean_sim _ _ _ _ _ _ _ _ _ _, hsim⟩,
          ⟨rating, ?_, hge⟩⟩
  rw [lookup_clean_rating, pyGe_true_not_nan rating _ hge]
  rfl

/-- Witness for C1: the concrete posting `job0` is persisted and its stored
scores meet both thresholds. -/
theorem c1_witness :
    (∃ q : ℚ, List.lookup "similarity_score" rec0 = some (.vFloat q) ∧
      SIMILARITY_THRESHOLD ≤ q) ∧
    (∃ v, List.lookup "gemini_rating" rec0 = some v ∧
      pyGe v GEMINI_RATING_THRESHOLD = some true) :=
  c1_persistence_requires_both_thresholds parse0 embedHalf gate0 "rc" "2026-01-01"
    1 2 job0 rec0 ["great job"] [("rc", "great job")] rfl

/-- Claim C2: `trigger` is single-flight.  Two back-to-back triggers while
the first run is active produce exactly one 202 (accepted) and one 409
(rejected); `run_script_in_thread` clears the run flag on both its exit
paths (normal completion and unhandled exception), so a trigger issued after
the worker finishes is accepted again. -/
theorem c2_run_guard_single_flight (script : Except Unit Unit) (s : Bool) :
    (Server.trigger_search false).1 = 202 ∧
    (Server.trigger_search (Server.trigger_search false).2).1 = 409 ∧
    Server.run_script_in_thread script s = false ∧
    (Server.trigger_search (Server.run_script_in_thread script s)).1 = 202 := by
  refine ⟨rfl, rfl, ?_, ?_⟩ <;> cases script <;> rfl

/-- Claim C3: `save_job_to_db` is deduplicating and key-guarded: a record
with an absent (or otherwise falsy) `job_url` is never inserted, a record
whose `job_url` already matches a stored row is never inserted, and any
sequence of saves starting from a store with pairwise-distinct urls leaves
at most one stored row per `job_url`. -/
theorem c3_save_dedup :
    (∀ (store : List Dict) (rec : Dict), pyTruthy (urlOf rec) = false →
      save_job_to_db store rec = store) ∧
    (∀ (store : List Dict) (rec : Dict),
      (∃ row ∈ store, pyEq (urlOf row) (urlOf rec) = true) →
      save_job_to_db store rec = store) ∧
    (∀ (recs : List Dict) (store : List Dict), UrlsPairwiseDistinct store →
      UrlsPairwiseDistinct (recs.foldl save_job_to_db store)) := by
  refine ⟨?_, ?_, ?_⟩
  · intro store rec hfalsy
    unfold save_job_to_db
    rw [hfalsy]
    rfl
  · intro store rec ⟨row, hmem, heq⟩
    unfold save_job_to_db
    split
    · rfl
    · have hany : store.any (fun r => pyEq (urlOf r) (urlOf rec)) = true :=
        List.any_eq_true.mpr ⟨row, hmem, heq⟩
      rw [hany]
      rfl
  · intro recs
    induction recs with
    | nil => intro store h; exact h
    | cons r rest ih =>
      intro store h
      exact ih _ (save_job_to_db_preserves store r h)

/-- Witness for C3 at concrete inputs: a record without a url is not saved; a
duplicate url is skipped; two saves of the same record leave a
pairwise-distinct store. -/
theorem c3_save_dedup_witness :
    save_job_to_db [rec0] [("title", .vStr "T")] = [rec0] ∧
    save_job_to_db [rec0] rec0 = [rec0] ∧
    UrlsPairwiseDistinct ([rec0, rec0].foldl save_job_to_db []) :=
  ⟨c3_save_dedup.1 [rec0] [("title", .vStr "T")] (by decide),
   c3_save_dedup.2.1 [rec0] rec0 ⟨rec0, by simp, by decide⟩,
   c3_save_dedup.2.2 [rec0, rec0] [] (List.Pairwise.nil)⟩

/-- Claim C4 (the code, not the claim): `run_job_search.py` has its own
`run_job_scrape` with no `try`/`except`, and the `__main__` loop calls that
one, so a retrieval-provider exception propagates and aborts the whole run
before any later search is processed -- here the two-search run dies on the
first search and never persists the second search's passing posting, while
the refactored `ApiClient.run_job_scrape` (which the loop does not call)
does return `[]` as the claim describes. -/
theorem c4_retrieval_exception_aborts_run :
    RunJobSearch.run_job_scrape failingScraper cfgA = .error () ∧
    ApiClient.run_job_scrape failingScraper cfgA = [] ∧
    run_pipeline failingScraper parse0 embedHalf gate0 "rc" "2026-01-01" 1 [cfgA, cfgB]
      = (⟨[], [], []⟩, some .providerError) ∧
    run_pipeline failingScraper parse0 embedHalf gate0 "rc" "2026-01-01" 1 [cfgB]
      = (⟨[[("title", .vStr "T"), ("company", .vStr "Co"),
           ("job_url", .vStr "https://x/1"), ("description", .vStr "great job"),
           ("similarity_score", .vFloat (mkRat 1 2)),
           ("gemini_rating", .vInt 9), ("ai_reason", .vStr "good fit"),
           ("created_at", .vStr "2026-01-01"),
           ("profile_id", .vInt 1), ("search_id", .vInt 2)]],
          ["great job"], [("rc", "great job")]⟩, none) :=
  ⟨rfl, rfl, rfl, rfl⟩

/-- Claim C5, counterexample: an oracle response whose fenced text parses as
the empty JSON object -- `parseEmptyObj` agrees with `json.loads` on that
input -- does not match the verdict schema, yet `get_gemini_analysis`
returns it as-is instead of the null the claim requires: the code never
validates the parsed value's shape. -/
theorem c5_counterexample :
    ApiClient.get_gemini_analysis parseEmptyObj oracleFenced "rc" "jd" "entry_level"
      = some (.vDict []) ∧
    specGeminiSchema (.vDict []) = false :=
  ⟨rfl, rfl⟩

/-- Claim C5 as amended: both `get_gemini_analysis` versions return null
exactly on an oracle exception or a parse failure (`json.loads` raising lands
in the same `except`), and return any successfully parsed value unchanged,
with no schema validation. -/
theorem c5_gate_parse_policy (parse : String → Option PyVal)
    (oracle : String → String → String → Except Unit String)
    (oracle2 : String → String → Except Unit String) (rc jd el : String) :
    (∀ e, oracle rc jd el = .error e →
      ApiClient.get_gemini_analysis parse oracle rc jd el = none) ∧
    (∀ t, oracle rc jd el = .ok t →
      ApiClient.get_gemini_analysis parse oracle rc jd el = parse (clean_fenced t)) ∧
    (∀ e, oracle2 rc jd = .error e →
      RunJobSearch.get_gemini_analysis parse oracle2 rc jd = none) ∧
    (∀ t, oracle2 rc jd = .ok t →
      RunJobSearch.get_gemini_analysis parse oracle2 rc jd = parse (clean_fenced t)) := by
  refine ⟨?_, ?_, ?_, ?_⟩ <;> intro t ht <;>
    simp [ApiClient.get_gemini_analysis, RunJobSearch.get_gemini_analysis, ht]

/-- Witness for the amended C5 at concrete oracles: a raising oracle yields
null, and fenced text is stripped and handed to the parser in both versions. -/
theorem c5_gate_parse_policy_witness :
    ApiClient.get_gemini_analysis parseEmptyObj oracleRaise "rc" "jd" "el" = none ∧
    ApiClient.get_gemini_analysis parseEmptyObj oracleFenced "rc" "jd" "el"
      = parseEmptyObj (clean_fenced " ```json\x7b\x7d``` ") ∧
    RunJobSearch.get_gemini_analysis parseEmptyObj gate0 "rc" "jd"
      = parseEmptyObj (clean_fenced "RESP") :=
  ⟨(c5_gate_parse_policy parseEmptyObj oracleRaise gate0 "rc" "jd" "el").1 () rfl,
   (c5_gate_parse_policy parseEmptyObj oracleFenced gate0 "rc" "jd" "el").2.1 _ rfl,
   (c5_gate_parse_policy parseEmptyObj oracleFenced gate0 "rc" "jd" "el").2.2.2 _ rfl⟩

/-- Claim C6 (the code, not the claim): the `__main__` loop calls its local
two-argument `get_gemini_analysis(resume_context, description)`; the search
spec's experience level is passed neither to the gate (the recorded gate
call argument pairs carry no such component) nor to the scraper (the local
`scrape_args` sets none), so two runs whose configurations differ only in
`experience_level` are indistinguishable -- the three-argument
`ApiClient.get_gemini_analysis` exists but is never invoked by the loop. -/
theorem c6_experience_level_never_reaches_gate :
    cfgEntry.experience_level ≠ cfgSenior.experience_level ∧
    (RunJobSearch.scrape_args cfgEntry).experience_level = none ∧
    RunJobSearch.scrape_args cfgEntry = RunJobSearch.scrape_args cfgSenior ∧
    run_pipeline okScraper parse0 embedHalf gate0 "rc" "2026-01-01" 1 [cfgEntry]
      = run_pipeline okScraper parse0 embedHalf gate0 "rc" "2026-01-01" 1 [cfgSenior] ∧
    (run_pipeline okScraper parse0 embedHalf gate0 "rc" "2026-01-01" 1 [cfgEntry]).1.gateCalls
      = [("rc", "great job")] :=
  ⟨by decide, rfl, rfl, rfl, rfl⟩

/-- Claim C7, counterexample: the empty string is not a non-empty text value,
yet the scorer sends it to the embedding oracle and returns the oracle's
score (0.5 here) instead of 0.0, and the Qualitative Gate is then invoked
for the posting -- the code only checks `isinstance(description, str)`,
never emptiness. -/
theorem c7_counterexample :
    specNonEmptyText (.vStr "") = false ∧
    get_similarity_score embedHalf (.vStr "") = (mkRat 1 2, [""]) ∧
    (processJob parse0 embedHalf gate0 "rc" "2026-01-01" 1 2 jobEmptyDesc).gateCalls
      = [("rc", "")] :=
  ⟨rfl, rfl, rfl⟩

/-- Claim C7 as amended: for every description that is not a text value
(including not-a-number markers), the scorer returns exactly 0.0 without
invoking the embedding oracle, and the pipeline loop skips the posting
without invoking the Qualitative Gate. -/
theorem c7_nontext_description_scores_zero (embed : String → ℚ) (d : PyVal)
    (hd : isStr d = false) :
    get_similarity_score embed d = (0, []) ∧
    (∀ (parse : String → Option PyVal) (gate : String → String → Except Unit String)
      (rc now : String) (pid sid : Int) (t c u : PyVal),
      processJob parse embed gate rc now pid sid ⟨t, c, u, d⟩ = ⟨.ok none, [], []⟩) := by
  constructor
  · simp [get_similarity_score, hd]
  · intro parse gate rc now pid sid t c u
    simp [processJob, hd]

/-- Witness for the amended C7 at a `nan` description. -/
theorem c7_witness :
    get_similarity_score embedHalf .vNan = (0, []) ∧
    processJob parse0 embedHalf gate0 "rc" "2026-01-01" 1 2
      ⟨.vStr "T", .vStr "Co", .vStr "u", .vNan⟩ = ⟨.ok none, [], []⟩ :=
  ⟨(c7_nontext_description_scores_zero embedHalf .vNan (by decide)).1,
   (c7_nontext_description_scores_zero embedHalf .vNan (by decide)).2
     parse0 gate0 "rc" "2026-01-01" 1 2 (.vStr "T") (.vStr "Co") (.vStr "u")⟩

/-- Claim C8, counterexample: an infinite float is a floating-point value
that is not finite, but `clean_job_data` leaves it unchanged instead of
replacing it with the null marker -- the code tests `math.isnan`, which is
false on the infinities. -/
theorem c8_counterexample :
    specNonFiniteFloat .vInf = true ∧
    clean_job_data [("salary", .vInf)] = [("salary", .vInf)] ∧
    clean_job_data [("salary", .vInf)] ≠ [("salary", .vNone)] := by
  refine ⟨rfl, rfl, ?_⟩
  intro h
  simp [clean_job_data, isFloatNan] at h

/-- Claim C8 as amended: normalization is total and exact for `nan`: every
`nan`-valued entry becomes the null marker, every other value (infinite
floats included) and every key passes through unchanged; the function is
total by construction, so it never raises. -/
theorem c8_normalize_replaces_nan_only (m : Dict) :
    List.Forall₂ (fun kv kv' => kv'.1 = kv.1 ∧
      ((isFloatNan kv.2 = true ∧ kv'.2 = .vNone) ∨
       (isFloatNan kv.2 = false ∧ kv'.2 = kv.2)))
      m (clean_job_data m) := by
  induction m with
  | nil => exact List.Forall₂.nil
  | cons kv rest ih =>
    refine List.Forall₂.cons ⟨rfl, ?_⟩ ih
    by_cases hk : isFloatNan kv.2 <;> simp [hk]

/-- Claim C9: the cheap filter short-circuits the expensive one: whenever the
embedding score of the posting's description is strictly below the 0.45
threshold, the per-posting loop records no Qualitative Gate call. -/
theorem c9_below_threshold_skips_gate (parse : String → Option PyVal)
    (embed : String → ℚ) (gate : String → String → Except Unit String)
    (rc now : String) (pid sid : Int) (job : Job)
    (hlow : ∀ s, job.description = .vStr s → embed s < SIMILARITY_THRESHOLD) :
    (processJob parse embed gate rc now pid sid job).gateCalls = [] := by
  unfold processJob
  rcases hd : job.description with _ | b | n | q | _ | _ | _ | s | l | d
  case vStr =>
    have hlt := not_le.mpr (hlow s hd)
    simp [get_similarity_score, isStr, pdIsNa, hlt]
  all_goals rfl

/-- Witness for C9: with an embedding oracle scoring 0.25, the gate is never
called on the concrete posting `job0`. -/
theorem c9_witness :
    (processJob parse0 (fun _ => mkRat 1 4) gate0 "rc" "2026-01-01" 1 2 job0).gateCalls
      = [] :=
  c9_below_threshold_skips_gate parse0 (fun _ => mkRat 1 4) gate0 "rc" "2026-01-01"
    1 2 job0 (by intro s hs; simp [job0] at hs; subst hs; decide)

/-- Claim C10: the unguarded `gemini_result["gemini_rating"]` lookup in the
record assembly can never be the uncaught exception that aborts the loop (a
`KeyError` for that key is impossible, because the guard
`.get("gemini_rating", 0) >= 7` only passes when the key exists), and every
persisted record carries a `gemini_rating` that passed the `>= 7`
comparison. -/
theorem c10_rating_lookup_never_fails (parse : String → Option PyVal)
    (embed : String → ℚ) (gate : String → String → Except Unit String)
    (rc now : String) (pid sid : Int) (job : Job) :
    (processJob parse embed gate rc now pid sid job).outcome
      ≠ .error (.keyError "gemini_rating") ∧
    (∀ rec ec gc,
      processJob parse embed gate rc now pid sid job = ⟨.ok (some rec), ec, gc⟩ →
      ∃ v, List.lookup "gemini_rating" rec = some v ∧
        pyGe v GEMINI_RATING_THRESHOLD = some true) := by
  constructor
  · intro hbad
    rcases hpj : processJob parse embed gate rc now pid sid job with ⟨out, ec, gc⟩
    rw [hpj] at hbad
    simp only at hbad
    subst hbad
    exact processJob_error_inv parse embed gate rc now pid sid job _ ec gc hpj rfl
  · intro rec ec gc h
    obtain ⟨s, rating, reason, hd, hsim, hge, hrec⟩ :=
      processJob_persist_inv parse embed gate rc now pid sid job rec ec gc h
    subst hrec
    refine ⟨rating, ?_, hge⟩
    rw [lookup_clean_rating, pyGe_true_not_nan rating _ hge]
    rfl

/-- Witness for C10 at the concrete persisting run of `job0`. -/
theorem c10_witness :
    (processJob parse0 embedHalf gate0 "rc" "2026-01-01" 1 2 job0).outcome
      ≠ .error (.keyError "gemini_rating") ∧
    (∃ v, List.lookup "gemini_rating" rec0 = some v ∧
      pyGe v GEMINI_RATING_THRESHOLD = some true) :=
  ⟨(c10_rating_lookup_never_fails parse0 embedHalf gate0 "rc" "2026-01-01" 1 2 job0).1,
   (c10_rating_lookup_never_fails parse0 embedHalf gate0 "rc" "2026-01-01" 1 2 job0).2
     rec0 ["great job"] [("rc", "great job")] rfl⟩

/-- Witness for C2 at a concrete failing script run. -/
theorem c2_run_guard_single_flight_witness :
    (Server.trigger_search false).1 = 202 ∧
    (Server.trigger_search (Server.trigger_search false).2).1 = 409 ∧
    Server.run_script_in_thread (.error ()) true = false ∧
    (Server.trigger_search (Server.run_script_in_thread (.error ()) true)).1 = 202 :=
  c2_run_guard_single_flight (.error ()) true
